import Mathlib

/-!
# Verification of `pandera/typing/common.py`

A shallow embedding of the annotation-introspection logic (`AnnotationInfo`),
the `DataFrameBase.__setattr__` validation hook, and the patched
`_GenericAlias.__call__` of `pandera/typing/common.py`.

Python's reflection universe is modelled by the inductive `PyObj`
(classes, parameterized generics, unions, `Annotated[...]` aliases,
`Literal[...]` aliases, type variables, special forms and plain values);
the `typing_inspect` / `inspect` primitives the source uses are modelled
as Lean functions on `PyObj` that mirror their CPython behaviour on the
representable values.  Python exceptions are modelled by `PyErr`, and
fallible code returns `Except PyErr _`.

The schema engine is an external collaborator (see the spec): a schema
model class exposes `to_schema`, a `Schema` compares by equality, and
`Schema.validate` is passed in as an explicit function parameter `vf`.
-/

set_option autoImplicit false

namespace PanderaTyping

/-- A schema built from a schema model by `to_schema`; compared by equality
(the collaborating validation engine's `Schema.__eq__`). -/
structure Schema where
  sid : Nat
deriving DecidableEq, Repr

/-- The Python exception classes that the module's control flow can observe:
`TypeError`, `ValueError`, `AttributeError`, `IndexError`, the three
validation-layer errors from `pandera.errors`, and a catch-all for any
other exception class. -/
inductive PyErr where
  | typeError (msg : String)
  | valueError
  | attributeError
  | indexError
  | schemaError
  | schemaInitError
  | schemaDefinitionError
  | otherError (msg : String)
deriving DecidableEq, Repr

/-- Plain (non-type) values, as they occur inside `Literal[...]` arguments. -/
inductive PyLit where
  | strLit (s : String)
  | intLit (n : Int)
  | boolLit (b : Bool)
  | noneLit
deriving DecidableEq, Repr

/-- A Python class object, flattened: `directBases` are the names of the
classes in `__bases__`, `ancestors` the names of every strict ancestor in
`__mro__` (ending with `object`).  `sigOk` models whether
`inspect.signature` succeeds on the class (it raises `ValueError` on
builtin types such as `int`); `toSchemaR` models what calling
`to_schema()` on the class returns or raises; `defaultDtype` models the
`default_dtype` class attribute. -/
structure PyClass where
  name : String
  directBases : List String
  ancestors : List String
  sigOk : Bool
  toSchemaR : Except PyErr Schema
  defaultDtype : Option String
deriving Repr

/-- A value of Python's annotation/reflection universe, as consumed by
`AnnotationInfo` and the generic-alias machinery.  Union arguments are
flattened and `Annotated` is never directly nested, matching `typing`'s
normalisation. -/
inductive PyObj where
  /-- an ordinary class object -/
  | classObj (c : PyClass)
  /-- `type(None)` (`NoneType`), the null branch of `Optional[...]` -/
  | noneType
  /-- `typing.Any` -/
  | anyObj
  /-- a `TypeVar` instance (not a class, not callable) -/
  | typeVar (name : String)
  /-- a bare special form such as `typing.Union` or `typing.Literal` -/
  | specialForm (name : String)
  /-- a plain value (e.g. the string inside a `Literal`) -/
  | valObj (v : PyLit)
  /-- `Union[args]` -/
  | union (args : List PyObj)
  /-- a parameterized generic `C[args]` whose `__origin__` is the class `c` -/
  | generic (c : PyClass) (args : List PyObj)
  /-- `Annotated[tp, *md]` with `__metadata__ = md` -/
  | annotated (tp : PyObj) (md : List String)
  /-- `Literal[vals]` -/
  | literal (vals : List PyLit)
deriving Repr

/-- Names of all classes in `inspect.getmro(c)`: the class itself followed
by its ancestors. -/
def mroNamesC (c : PyClass) : List String :=
  c.name :: c.ancestors

/-- Model of `issubclass(c, DataFrameBase)` for a class `c` (classes are identified
by name in this embedding). -/
def isDFBsub (c : PyClass) : Bool :=
  c.name == "DataFrameBase" || c.ancestors.contains ("DataFrameBase")

/-- Model of `typing_inspect.is_optional_type`: `True` for `type(None)` itself and
for a union having a `NoneType` argument (union arguments are flattened,
so the recursion of the original bottoms out after one level). -/
def is_optional_type (t : PyObj) : Bool :=
  match t with
  | PyObj.noneType => true
  | PyObj.union args =>
    args.any (fun a => match a with | PyObj.noneType => true | _ => false)
  | _ => false

/-- Model of `typing_inspect.is_union_type`. -/
def is_union_type (t : PyObj) : Bool :=
  match t with
  | PyObj.union _ => true
  | PyObj.specialForm n => n == "Union"
  | _ => false

/-- Model of `typing_inspect.is_literal_type`: the bare `Literal` special form or a
subscripted `Literal[...]`. -/
def is_literal_type (t : PyObj) : Bool :=
  match t with
  | PyObj.literal _ => true
  | PyObj.specialForm n => n == "Literal"
  | _ => false

/-- Model of `typing_inspect.get_origin`: `__origin__` of a subscripted alias
(`Union[...] ↦ typing.Union`, `C[args] ↦ C`, `Annotated[tp, ...] ↦ tp`,
`Literal[...] ↦ typing.Literal`), `None` otherwise. -/
def get_origin (t : PyObj) : Option PyObj :=
  match t with
  | PyObj.generic c _ => some (PyObj.classObj c)
  | PyObj.union _ => some (PyObj.specialForm "Union")
  | PyObj.annotated tp _ => some tp
  | PyObj.literal _ => some (PyObj.specialForm "Literal")
  | _ => none

/-- Model of `typing_inspect.get_args`: `__args__` of a subscripted alias, the
empty tuple otherwise.  For `Annotated[tp, *md]` the `__args__` tuple is
`(tp,)`; for `Literal[vals]` it is the tuple of plain values. -/
def get_args (t : PyObj) : List PyObj :=
  match t with
  | PyObj.union args => args
  | PyObj.generic _ args => args
  | PyObj.annotated tp _ => [tp]
  | PyObj.literal vals => vals.map PyObj.valObj
  | _ => []

/-- Model of `getattr(t, "__metadata__", None)`.  Only `Annotated[...]` aliases
carry `__metadata__`; `_GenericAlias.__getattr__` forwarding to the origin
never finds one on the representable origins. -/
def metadataOf (t : PyObj) : Option (List String) :=
  match t with
  | PyObj.annotated _ md => some md
  | _ => none

/-- Model of `inspect.signature(t)`, reduced to its outcome.  Classes are callable
but builtin types make `signature` raise `ValueError` (`sigOk = false`);
subscripted aliases are callable through `_GenericAlias.__call__`, so
`signature` succeeds on them; plain values, `TypeVar`s, bare special forms
and (pre-3.11) `typing.Any` are not callable, so `signature` raises
`TypeError`. -/
def signatureOf (t : PyObj) : Except PyErr Unit :=
  match t with
  | PyObj.classObj c =>
    if c.sigOk then Except.ok () else Except.error PyErr.valueError
  | PyObj.noneType => Except.error PyErr.valueError
  | PyObj.generic _ _ => Except.ok ()
  | PyObj.annotated _ _ => Except.ok ()
  | PyObj.union _ => Except.ok ()
  | PyObj.literal _ => Except.ok ()
  | _ => Except.error (PyErr.typeError ("not a callable object"))

/-- Model of `getattr(t, "default_dtype", None)`; `_GenericAlias.__getattr__` (and
`_AnnotatedAlias`) forward unknown attributes to the origin class. -/
def default_dtype_of (t : PyObj) : Option String :=
  match t with
  | PyObj.classObj c => c.defaultDtype
  | PyObj.generic c _ => c.defaultDtype
  | PyObj.annotated tp _ =>
    match tp with
    | PyObj.classObj c => c.defaultDtype
    | PyObj.generic c _ => c.defaultDtype
    | _ => none
  | _ => none

/-- Model of `isinstance(t, type) and issubclass(t, SeriesBase)` (the guard of the
bare-`Series`-generic branch of `_parse_annotation`). -/
def isSeriesSub (t : PyObj) : Bool :=
  match t with
  | PyObj.classObj c => c.name == "SeriesBase" || c.ancestors.contains ("SeriesBase")
  | _ => false

/-- Model of `issubclass(t, DataFrameBase)`: for non-class arguments `issubclass`
raises `TypeError` (`NoneType` is a class, so it yields `False`). -/
def issubclassExc (t : PyObj) : Except PyErr Bool :=
  match t with
  | PyObj.classObj c => Except.ok (isDFBsub c)
  | PyObj.noneType => Except.ok false
  | _ => Except.error (PyErr.typeError ("issubclass() arg 1 must be a class"))

/-- Model of `inspect.getmro(t)` reduced to the list of class names; raises
`AttributeError` when `t` has no `__mro__` (e.g. a `TypeVar` or a plain
value).  Subscripted aliases forward the attribute lookup to their origin
class. -/
def getmroNamesExc (t : PyObj) : Except PyErr (List String)  :=
  match t with
  | PyObj.classObj c => Except.ok (mroNamesC c)
  | PyObj.noneType => Except.ok ["NoneType", "object"]
  | PyObj.generic c _ => Except.ok (mroNamesC c)
  | _ => Except.error PyErr.attributeError

/-- Model of `t.to_schema()`: only class-like objects that reached this call (after
the MRO name check) expose it; forwarding applies for subscripted
aliases. -/
def toSchemaExc (t : PyObj) : Except PyErr Schema :=
  match t with
  | PyObj.classObj c => c.toSchemaR
  | PyObj.generic c _ => c.toSchemaR
  | _ => Except.error PyErr.attributeError

/-- The fields `AnnotationInfo._parse_annotation` computes (the attribute
`raw_annotation` is shortened to `raw_ann`). -/
structure AnnotationInfo where
  raw_ann : PyObj
  origin : Option PyObj
  args : Option (List PyObj)
  arg : Option PyObj
  is_annotated_type : Bool
  optional : Bool
  metadata : Option (List String)
  literal : Bool
  default_dtype : Option String
deriving Repr

/-!
## `AnnotationInfo._parse_annotation`

The body of `_parse_annotation` is split into its three source blocks:
`stripOptional` (the optional/union unwrapping), `metaPhase` (the
`__metadata__` handling, with `elifBranch` for the
`elif metadata := getattr(self.arg, "__metadata__", None)` arm) and
`litPhase` (the literal unwrap and the no-origin fallback).  `parseCore`
chains them and `parse` is the whole method.
-/

/-- Source:
`self.optional = typing_inspect.is_optional_type(raw_annotation)` followed
by `raw_annotation = typing_inspect.get_args(raw_annotation)[0]` when the
annotation is an optional union.  Indexing an empty tuple would raise
`IndexError` (unions are never empty in Python). -/
def stripOptional (raw0 : PyObj) : Except PyErr PyObj :=
  if is_optional_type raw0 && is_union_type raw0 then
    match get_args raw0 with
    | [] => Except.error PyErr.indexError
    | a :: _ => Except.ok a
  else Except.ok raw0

/-- Source: `elif metadata := getattr(self.arg, "__metadata__", None):
self.arg = typing_inspect.get_args(self.arg)[0]`.  The walrus assigns the
looked-up value to `metadata` in every case; the body runs only when it is
truthy.  Returns `(is_annotated_type, metadata, arg)`. -/
def elifBranch (arg0 : Option PyObj) :
    Except PyErr (Bool × Option (List String) × Option PyObj) :=
  match arg0 with
  | none => Except.ok (false, none, none)
  | some a =>
    match metadataOf a with
    | none => Except.ok (false, none, arg0)
    | some md =>
      if md.isEmpty then Except.ok (false, some md, arg0)
      else
        match get_args a with
        | [] => Except.error PyErr.indexError
        | tp :: _ => Except.ok (false, some md, some tp)

/-- Source: `metadata = getattr(raw_annotation, "__metadata__", None)`,
then `if metadata:` — set `is_annotated_type`, probe
`inspect.signature(self.arg)` and discard the metadata on `ValueError`
(any other exception, e.g. the `TypeError` raised for a non-callable
argument, propagates) — else the `elif` arm. -/
def metaPhase (raw : PyObj) (arg0 : Option PyObj) :
    Except PyErr (Bool × Option (List String) × Option PyObj) :=
  match metadataOf raw with
  | none => elifBranch arg0
  | some md =>
    if md.isEmpty then elifBranch arg0
    else
      match arg0 with
      | none => Except.error (PyErr.typeError ("not a callable object"))
      | some a =>
        match signatureOf a with
        | Except.ok _ => Except.ok (true, some md, arg0)
        | Except.error PyErr.valueError => Except.ok (true, none, arg0)
        | Except.error e => Except.error e

/-- Source: `self.literal = typing_inspect.is_literal_type(self.arg)`,
the literal unwrap `self.arg = typing_inspect.get_args(self.arg)[0]`, and
the `elif self.origin is None and self.metadata is None:` fallback
(`arg = Any` for a bare `SeriesBase` subclass, `arg = raw_annotation`
otherwise).  Returns `(literal, arg)`. -/
def litPhase (raw : PyObj) (origin : Option PyObj)
    (md : Option (List String)) (arg : Option PyObj) :
    Except PyErr (Bool × Option PyObj) :=
  if (match arg with | some a => is_literal_type a | none => false) then
    match arg with
    | some a =>
      match get_args a with
      | [] => Except.error PyErr.indexError
      | v :: _ => Except.ok (true, some v)
    | none => Except.error PyErr.indexError
  else if origin.isNone && md.isNone then
    if isSeriesSub raw then Except.ok (false, some PyObj.anyObj)
    else Except.ok (false, some raw)
  else Except.ok (false, arg)

/-- Body of `_parse_annotation` after the optional strip: `raw` is the (possibly
unwrapped) annotation and `opt` the already-computed `optional` flag. -/
def parseCore (raw : PyObj) (opt : Bool) : Except PyErr AnnotationInfo :=
  match metaPhase raw ((get_args raw).head?) with
  | Except.error e => Except.error e
  | Except.ok (isAnn, md, arg1) =>
    match litPhase raw (get_origin raw) md arg1 with
    | Except.error e => Except.error e
    | Except.ok (lit, arg2) =>
      Except.ok
        { raw_ann := raw
          origin := get_origin raw
          args := if (get_args raw).isEmpty then none else some (get_args raw)
          arg := arg2
          is_annotated_type := isAnn
          optional := opt
          metadata := md
          literal := lit
          default_dtype := default_dtype_of raw }

/-- Model of `AnnotationInfo._parse_annotation` (hence `AnnotationInfo.__init__`):
the fields derived from a raw annotation, or the exception the
construction raises. -/
def parse (raw0 : PyObj) : Except PyErr AnnotationInfo :=
  match stripOptional raw0 with
  | Except.error e => Except.error e
  | Except.ok raw => parseCore raw (is_optional_type raw0)

/-- Model of `AnnotationInfo.is_generic_df`: `issubclass(self.origin, DataFrameBase)`
with a `None` origin and a `TypeError` (the only exception `issubclass`
raises here) both mapping to `False`. -/
def AnnotationInfo.is_generic_df (info : AnnotationInfo) : Bool :=
  match info.origin with
  | none => false
  | some o =>
    match issubclassExc o with
    | Except.ok b => b
    | Except.error _ => false

/-!
## The generic-alias instantiation patch

`GenAlias` models a `_GenericAlias` value (`self` of the patched
`__call__`): `origin` is `self.__origin__`, `args` is
`getattr(self, "__args__", None)`, `inst` is `self._inst` and `aliasName`
the rendering of `self._name`.  `Instance` models the constructed object:
`data` its underlying dataframe state, `pandera` the
`getattr(self, "pandera", None)` accessor (`none` when absent, otherwise
its `.schema`), `origClass` the `__orig_class__` attribute.

`schema.validate(self)` is an explicit parameter
`vf : Schema → Nat → Except PyErr Nat` (the validation engine is an
external collaborator).
-/

structure GenAlias where
  origin : PyClass
  args : Option (List PyObj)
  inst : Bool
  aliasName : String
deriving Repr

structure Instance where
  data : Nat
  pandera : Option (Option Schema)
  origClass : Option GenAlias
deriving Repr

/-- The outcome of an attribute assignment: the (possibly partially
mutated) instance, whether `schema.validate` was invoked, and the
exception propagating out of `__setattr__`, if any. -/
structure SetattrResult where
  inst : Instance
  validated : Bool
  err : Option PyErr
deriving Repr

/-- The accessor guard of `DataFrameBase.__setattr__`:
`pandera_accessor is None or pandera_accessor.schema is None or
pandera_accessor.schema != schema`. -/
def needsValidation (acc : Option (Option Schema)) (schema : Schema) : Bool :=
  match acc with
  | none => true
  | some none => true
  | some (some s) => decide (s ≠ schema)

/-- The tail of `DataFrameBase.__setattr__` once the schema model has been
located: `schema = schema_model.to_schema()`, the accessor guard, and on
the validation path `self.__dict__.update(schema.validate(self).__dict__)`
followed by `pandera_accessor.add_schema(schema)`. -/
def schemaPhase (vf : Schema → Nat → Except PyErr Nat) (self : Instance)
    (schemaModel : PyObj) : SetattrResult :=
  match toSchemaExc schemaModel with
  | Except.error e => { inst := self, validated := false, err := some e }
  | Except.ok schema =>
    if needsValidation self.pandera schema then
      match vf schema self.data with
      | Except.error e => { inst := self, validated := true, err := some e }
      | Except.ok newData =>
        { inst := { self with data := newData, pandera := some (some schema) }
          validated := true
          err := none }
    else { inst := self, validated := false, err := none }

/-- Model of `DataFrameBase.__setattr__` for `name = "__orig_class__"` (the only
name with special behaviour).  `object.__setattr__` records the attribute
first; then `class_args = getattr(orig_class, "__args__", None)` and the
check `any(x.__name__ == "DataFrameModel" for x in
inspect.getmro(class_args[0]))` — a comparison of class *names*.  A
failing check raises `TypeError("Could not find DataFrameModel in class
args")`; a non-class first argument makes `inspect.getmro` raise
`AttributeError` instead. -/
def dataframeSetattr (vf : Schema → Nat → Except PyErr Nat)
    (self : Instance) (value : GenAlias) : SetattrResult :=
  let self1 : Instance := { self with origClass := some value }
  match value.args with
  | none =>
    { inst := self1, validated := false
      err := some (PyErr.typeError ("Could not find DataFrameModel in class args")) }
  | some [] =>
    { inst := self1, validated := false, err := some PyErr.indexError }
  | some (a :: _) =>
    match getmroNamesExc a with
    | Except.error e => { inst := self1, validated := false, err := some e }
    | Except.ok names =>
      if names.contains ("DataFrameModel") then schemaPhase vf self1 a
      else
        { inst := self1, validated := false
          err := some (PyErr.typeError ("Could not find DataFrameModel in class args")) }

/-- Model of `result.__orig_class__ = self`, dispatching on the class of `result`:
instances of `DataFrameBase` subclasses run `DataFrameBase.__setattr__`,
all other instances plain `object.__setattr__`. -/
def setAttrOrigClass (vf : Schema → Nat → Except PyErr Nat)
    (origin : PyClass) (inst : Instance) (value : GenAlias) : SetattrResult :=
  if isDFBsub origin then dataframeSetattr vf inst value
  else { inst := { inst with origClass := some value }, validated := false, err := none }

/-- The `TypeError` message of the not-instantiable branch, f-string
`"Type {self._name} cannot be instantiated; use
{self.__origin__.__name__}() instead"` (identical in the patched function
and in CPython's original `_BaseGenericAlias.__call__`). -/
def instErrMsg (self : GenAlias) : String :=
  "Type " ++ self.aliasName ++ " cannot be instantiated; use "
    ++ self.origin.name ++ "() instead"

/-- Model of `__orig_generic_alias_call`, the saved copy of CPython's
`_BaseGenericAlias.__call__` (as of the host runtimes the module targets,
see the source comment about Python 3.11.9): construct, then attempt
`result.__orig_class__ = self`, *all* exceptions from the assignment being
caught and ignored.  The constructed object
`result = self.__origin__(*args, **kwargs)` is passed in as
`constructed`. -/
def orig_generic_alias_call (vf : Schema → Nat → Except PyErr Nat)
    (self : GenAlias) (constructed : Instance) : Except PyErr Instance :=
  if self.inst = false then
    Except.error (PyErr.typeError (instErrMsg self))
  else
    Except.ok (setAttrOrigClass vf self.origin constructed self).inst

/-- Which exception classes the patched call re-raises from the
attribute attachment: `except (TypeError, errors.SchemaError,
errors.SchemaInitError, errors.SchemaDefinitionError): raise`. -/
def isPropagated (e : PyErr) : Bool :=
  match e with
  | PyErr.typeError _ => true
  | PyErr.schemaError => true
  | PyErr.schemaInitError => true
  | PyErr.schemaDefinitionError => true
  | _ => false

/-- The dataframe branch of the patched call: reject `_inst = False`
aliases, construct, attach `__orig_class__`, re-raise exactly the four
listed exception classes and swallow the rest (`except Exception:
pass`). -/
def df_generic_call (vf : Schema → Nat → Except PyErr Nat)
    (self : GenAlias) (constructed : Instance) : Except PyErr Instance :=
  if self.inst = false then
    Except.error (PyErr.typeError (instErrMsg self))
  else
    let r := setAttrOrigClass vf self.origin constructed self
    match r.err with
    | none => Except.ok r.inst
    | some e => if isPropagated e then Except.error e else Except.ok r.inst

/-- Model of `__patched_generic_alias_call`: delegate to the original behaviour
unless `DataFrameBase` is among the *direct* bases of `self.__origin__`
(`if DataFrameBase not in self.__origin__.__bases__: return
__orig_generic_alias_call(self, *args, **kwargs)`). -/
def patched_generic_alias_call (vf : Schema → Nat → Except PyErr Nat)
    (self : GenAlias) (constructed : Instance) : Except PyErr Instance :=
  if self.origin.directBases.contains ("DataFrameBase") then
    df_generic_call vf self constructed
  else
    orig_generic_alias_call vf self constructed

/-!
## Well-formedness of annotation values

`annSafe` captures the Python-constructibility conditions under which
`_parse_annotation` cannot hit an exception: subscripted aliases are never
empty (`Union[()]`, `Literal[()]` and bare `Literal` in argument position
are not constructible annotations), and — the one condition real
annotations can violate — the first argument of an `Annotated[...]` must
be callable, since `inspect.signature` raises an uncaught `TypeError` on
non-callables such as `TypeVar`s.
-/

/-- Model of `callable(t)` for the representable objects: classes and subscripted
aliases are callable; plain values, `TypeVar`s, bare special forms and
(pre-3.11) `typing.Any` are not. -/
def callableB (t : PyObj) : Bool :=
  match t with
  | PyObj.valObj _ => false
  | PyObj.typeVar _ => false
  | PyObj.specialForm _ => false
  | PyObj.anyObj => false
  | _ => true

/-- The literal-unwrap step `get_args(self.arg)[0]` cannot raise on this
final `arg` value. -/
def argLitSafe (arg : Option PyObj) : Bool :=
  match arg with
  | some (PyObj.literal vals) => !vals.isEmpty
  | some (PyObj.specialForm n) => !(n == "Literal")
  | _ => true

/-- Safety of a value sitting in the first-argument position of the
(stripped) annotation, accounting for the `elif` metadata unwrap. -/
def headArgSafe (a : PyObj) : Bool :=
  match a with
  | PyObj.literal vals => !vals.isEmpty
  | PyObj.specialForm n => !(n == "Literal")
  | PyObj.annotated tp _ => argLitSafe (some tp)
  | _ => true

/-- The predicate `headArgSafe` lifted to the optional head of the argument tuple. -/
def headOptSafe (a0 : Option PyObj) : Bool :=
  match a0 with
  | some a => headArgSafe a
  | none => true

/-- Safety conditions on the annotation after the optional strip. -/
def annSafeStripped (raw : PyObj) : Bool :=
  (match raw with
   | PyObj.annotated tp md => md.isEmpty || callableB tp
   | _ => true)
  && headOptSafe ((get_args raw).head?)

/-- Safety conditions on a raw annotation value: the strip succeeds and
the stripped annotation is safe. -/
def annSafe (a : PyObj) : Bool :=
  match stripOptional a with
  | Except.ok raw => annSafeStripped raw
  | Except.error _ => false

/-- On a callable object, `inspect.signature` either succeeds or raises
`ValueError` (which `_parse_annotation` catches). -/
theorem callable_signature (tp : PyObj) (h : callableB tp = true) :
    signatureOf tp = Except.ok () ∨ signatureOf tp = Except.error PyErr.valueError := by
  cases tp with
  | classObj c => cases hs : c.sigOk <;> simp [signatureOf, hs]
  | noneType => simp [signatureOf]
  | union args => simp [signatureOf]
  | generic c args => simp [signatureOf]
  | annotated t md => simp [signatureOf]
  | literal vals => simp [signatureOf]
  | anyObj => simp [callableB] at h
  | typeVar n => simp [callableB] at h
  | specialForm n => simp [callableB] at h
  | valObj v => simp [callableB] at h

theorem headArg_argLit (a : PyObj) (h : headArgSafe a = true) :
    argLitSafe (some a) = true := by
  cases a <;> simp_all [headArgSafe, argLitSafe]

/-- The `elif` metadata arm never raises, and produces a literal-safe
argument from a safe one. -/
theorem elifBranch_ok (a0 : Option PyObj) (h : headOptSafe a0 = true) :
    ∃ md arg1, elifBranch a0 = Except.ok (false, md, arg1) ∧ argLitSafe arg1 = true := by
  cases a0 with
  | none => exact ⟨none, none, rfl, rfl⟩
  | some a =>
    cases a with
    | annotated tp md =>
      cases he : md.isEmpty with
      | true =>
        exact ⟨some md, some (PyObj.annotated tp md), by simp [elifBranch, metadataOf, he], rfl⟩
      | false =>
        refine ⟨some md, some tp, by simp [elifBranch, metadataOf, he, get_args], ?_⟩
        simpa [headOptSafe, headArgSafe] using h
    | classObj c => exact ⟨none, some (PyObj.classObj c), rfl, headArg_argLit _ (by simpa [headOptSafe] using h)⟩
    | noneType => exact ⟨none, some PyObj.noneType, rfl, rfl⟩
    | anyObj => exact ⟨none, some PyObj.anyObj, rfl, rfl⟩
    | typeVar n => exact ⟨none, some (PyObj.typeVar n), rfl, rfl⟩
    | specialForm n => exact ⟨none, some (PyObj.specialForm n), rfl, headArg_argLit _ (by simpa [headOptSafe] using h)⟩
    | valObj v => exact ⟨none, some (PyObj.valObj v), rfl, rfl⟩
    | union args => exact ⟨none, some (PyObj.union args), rfl, rfl⟩
    | generic c args => exact ⟨none, some (PyObj.generic c args), rfl, rfl⟩
    | literal vals => exact ⟨none, some (PyObj.literal vals), rfl, headArg_argLit _ (by simpa [headOptSafe] using h)⟩

/-- The literal/fallback phase never raises on a literal-safe argument. -/
theorem litPhase_ok (raw : PyObj) (origin : Option PyObj)
    (md : Option (List String)) (arg : Option PyObj)
    (h : argLitSafe arg = true) :
    ∃ p, litPhase raw origin md arg = Except.ok p := by
  cases arg with
  | none =>
    cases ho : (origin.isNone && md.isNone) with
    | true =>
      cases hs : isSeriesSub raw with
      | true => exact ⟨(false, some PyObj.anyObj), by simp [litPhase, ho, hs]⟩
      | false => exact ⟨(false, some raw), by simp [litPhase, ho, hs]⟩
    | false => exact ⟨(false, none), by simp [litPhase, ho]⟩
  | some a =>
    cases hl : is_literal_type a with
    | true =>
      cases a with
      | literal vals =>
        cases vals with
        | nil => simp [argLitSafe] at h
        | cons v vs => exact ⟨(true, some (PyObj.valObj v)), by simp [litPhase, is_literal_type, get_args]⟩
      | specialForm n =>
        rw [is_literal_type] at hl
        rw [argLitSafe, hl] at h
        simp at h
      | classObj c => simp [is_literal_type] at hl
      | noneType => simp [is_literal_type] at hl
      | anyObj => simp [is_literal_type] at hl
      | typeVar m => simp [is_literal_type] at hl
      | valObj v => simp [is_literal_type] at hl
      | union args => simp [is_literal_type] at hl
      | generic c args => simp [is_literal_type] at hl
      | annotated tp m => simp [is_literal_type] at hl
    | false =>
      cases ho : (origin.isNone && md.isNone) with
      | true =>
        cases hs : isSeriesSub raw with
        | true => exact ⟨(false, some PyObj.anyObj), by simp [litPhase, hl, ho, hs]⟩
        | false => exact ⟨(false, some raw), by simp [litPhase, hl, ho, hs]⟩
      | false => exact ⟨(false, some a), by simp [litPhase, hl, ho]⟩

/-- The metadata phase never raises on a safe stripped annotation, and
its resulting argument is literal-safe. -/
theorem metaPhase_ok (raw : PyObj) (h : annSafeStripped raw = true) :
    ∃ t, metaPhase raw ((get_args raw).head?) = Except.ok t ∧ argLitSafe t.2.2 = true := by
  have h2 : headOptSafe ((get_args raw).head?) = true := by
    unfold annSafeStripped at h
    exact (Bool.and_eq_true _ _).mp h |>.2
  cases raw with
  | annotated tp md =>
    cases he : md.isEmpty with
    | true =>
      obtain ⟨md1, arg1, hb, hs⟩ := elifBranch_ok ((get_args (PyObj.annotated tp md)).head?) h2
      exact ⟨(false, md1, arg1), by simp [metaPhase, metadataOf, he, hb], hs⟩
    | false =>
      have hc : callableB tp = true := by
        unfold annSafeStripped at h
        have := (Bool.and_eq_true _ _).mp h |>.1
        simpa [he] using this
      have hhead : (get_args (PyObj.annotated tp md)).head? = some tp := by
        simp [get_args]
      have hsafe : argLitSafe (some tp) = true := by
        rw [hhead] at h2
        exact headArg_argLit tp (by simpa [headOptSafe] using h2)
      rcases callable_signature tp hc with hsig | hsig
      · refine ⟨(true, some md, some tp), ?_, hsafe⟩
        simp [metaPhase, metadataOf, he, hhead, hsig]
      · refine ⟨(true, none, some tp), ?_, hsafe⟩
        simp [metaPhase, metadataOf, he, hhead, hsig]
  | classObj c =>
    obtain ⟨md1, arg1, hb, hs⟩ := elifBranch_ok _ h2
    exact ⟨(false, md1, arg1), hb, hs⟩
  | noneType =>
    obtain ⟨md1, arg1, hb, hs⟩ := elifBranch_ok _ h2
    exact ⟨(false, md1, arg1), hb, hs⟩
  | anyObj =>
    obtain ⟨md1, arg1, hb, hs⟩ := elifBranch_ok _ h2
    exact ⟨(false, md1, arg1), hb, hs⟩
  | typeVar n =>
    obtain ⟨md1, arg1, hb, hs⟩ := elifBranch_ok _ h2
    exact ⟨(false, md1, arg1), hb, hs⟩
  | specialForm n =>
    obtain ⟨md1, arg1, hb, hs⟩ := elifBranch_ok _ h2
    exact ⟨(false, md1, arg1), hb, hs⟩
  | valObj v =>
    obtain ⟨md1, arg1, hb, hs⟩ := elifBranch_ok _ h2
    exact ⟨(false, md1, arg1), hb, hs⟩
  | union args =>
    obtain ⟨md1, arg1, hb, hs⟩ := elifBranch_ok _ h2
    exact ⟨(false, md1, arg1), hb, hs⟩
  | generic c args =>
    obtain ⟨md1, arg1, hb, hs⟩ := elifBranch_ok _ h2
    exact ⟨(false, md1, arg1), hb, hs⟩
  | literal vals =>
    obtain ⟨md1, arg1, hb, hs⟩ := elifBranch_ok _ h2
    exact ⟨(false, md1, arg1), hb, hs⟩

/-- The method `_parse_annotation`, after the strip, never raises on a safe
annotation, and fills the direct fields from it. -/
theorem parseCore_ok (raw : PyObj) (opt : Bool) (h : annSafeStripped raw = true) :
    ∃ info, parseCore raw opt = Except.ok info ∧
      info.raw_ann = raw ∧ info.optional = opt ∧ info.origin = get_origin raw := by
  obtain ⟨⟨isAnn, md, arg1⟩, hm, hsafe⟩ := metaPhase_ok raw h
  obtain ⟨⟨lit, arg2⟩, hl⟩ := litPhase_ok raw (get_origin raw) md arg1 hsafe
  refine ⟨{ raw_ann := raw, origin := get_origin raw,
            args := if (get_args raw).isEmpty then none else some (get_args raw),
            arg := arg2, is_annotated_type := isAnn, optional := opt,
            metadata := md, literal := lit,
            default_dtype := default_dtype_of raw }, ?_, rfl, rfl, rfl⟩
  unfold parseCore
  rw [hm]
  dsimp only
  rw [hl]

/-!
## Concrete fixtures

A small gallery of classes, aliases and instances used by witnesses and
counterexamples.
-/

/-- A builtin data type: `inspect.signature` raises `ValueError` on it. -/
def intCls : PyClass :=
  { name := "int", directBases := [], ancestors := ["object"], sigOk := false
    toSchemaR := Except.error PyErr.attributeError, defaultDtype := none }

/-- The `str` builtin type (the value type of a string literal). -/
def strCls : PyClass :=
  { name := "str", directBases := [], ancestors := ["object"], sigOk := false
    toSchemaR := Except.error PyErr.attributeError, defaultDtype := none }

/-- A `SeriesBase` subclass (the `Series` marker generic). -/
def seriesCls : PyClass :=
  { name := "Series", directBases := ["SeriesBase"], ancestors := ["SeriesBase", "object"]
    sigOk := true, toSchemaR := Except.error PyErr.attributeError, defaultDtype := none }

/-- A user schema model: `DataFrameModel` occurs in its MRO and
`to_schema()` returns the schema with id 1. -/
def modelCls : PyClass :=
  { name := "UserModel", directBases := ["DataFrameModel"]
    ancestors := ["DataFrameModel", "object"], sigOk := true
    toSchemaR := Except.ok { sid := 1 }, defaultDtype := none }

/-- A class with `DataFrameBase` among its direct bases (pandera's
`DataFrame`). -/
def childCls : PyClass :=
  { name := "Child", directBases := ["DataFrameBase"]
    ancestors := ["DataFrameBase", "object"], sigOk := true
    toSchemaR := Except.error PyErr.attributeError, defaultDtype := none }

/-- A strict descendant: a subclass of `DataFrameBase` that does *not*
have it among its direct bases. -/
def grandCls : PyClass :=
  { name := "Grand", directBases := ["Child"]
    ancestors := ["Child", "DataFrameBase", "object"], sigOk := true
    toSchemaR := Except.error PyErr.attributeError, defaultDtype := none }

/-- A class unrelated to `DataFrameBase` (e.g. `list`). -/
def plainCls : PyClass :=
  { name := "list", directBases := [], ancestors := ["object"], sigOk := true
    toSchemaR := Except.error PyErr.attributeError, defaultDtype := none }

/-- A freshly constructed instance: no accessor state, no recorded
originating class. -/
def inst0 : Instance := { data := 0, pandera := none, origClass := none }

/-- An instance already carrying the schema with id 1. -/
def instVal : Instance := { data := 5, pandera := some (some { sid := 1 }), origClass := none }

/-- A validation engine whose `validate` always raises `SchemaError`. -/
def vfErr : Schema → Nat → Except PyErr Nat := fun _ _ => Except.error PyErr.schemaError

/-- A validation engine whose `validate` succeeds, returning coerced
data. -/
def vfOk : Schema → Nat → Except PyErr Nat := fun _ n => Except.ok (n + 100)

/-- The alias `Grand[UserModel]`, parameterizing the strict descendant. -/
def gaGrand : GenAlias :=
  { origin := grandCls, args := some [PyObj.classObj modelCls], inst := true, aliasName := "None" }

/-- The alias `Child[UserModel]` (the ordinary `DataFrame[Model]` shape). -/
def gaChild : GenAlias :=
  { origin := childCls, args := some [PyObj.classObj modelCls], inst := true, aliasName := "None" }

/-- The alias `Child[T]` with a bare `TypeVar` argument. -/
def gaTyVar : GenAlias :=
  { origin := childCls, args := some [PyObj.typeVar "T"], inst := true, aliasName := "None" }

/-- A non-instantiable alias of the marker generic (`_inst = False`). -/
def gaNoInst : GenAlias :=
  { origin := childCls, args := none, inst := false, aliasName := "DataFrame" }

/-- An alias whose origin is unrelated to `DataFrameBase`. -/
def gaPlain : GenAlias :=
  { origin := plainCls, args := none, inst := true, aliasName := "list" }

/-- Does an `AnnotationInfo.arg` value hold a class object? -/
def argIsClassObj (a : Option PyObj) : Bool :=
  match a with
  | some (PyObj.classObj _) => true
  | _ => false

/-- Is a `__setattr__` outcome a `TypeError`? -/
def isTypeErrorOpt (e : Option PyErr) : Bool :=
  match e with
  | some (PyErr.typeError _) => true
  | _ => false

/-!
## Claim C4 — literal arguments
-/

/-- C4 (amended): for every annotation whose argument is a (non-empty)
literal type, `literal` is set and `arg` becomes the literal's *first
underlying value* — the value itself, e.g. the string `"a"` — not the
literal type and not the value's type. -/
theorem c4_literal_arg (c : PyClass) (v : PyLit) (vs : List PyLit) :
    parse (PyObj.generic c [PyObj.literal (v :: vs)]) =
      Except.ok
        { raw_ann := PyObj.generic c [PyObj.literal (v :: vs)]
          origin := some (PyObj.classObj c)
          args := some [PyObj.literal (v :: vs)]
          arg := some (PyObj.valObj v)
          is_annotated_type := false
          optional := false
          metadata := none
          literal := true
          default_dtype := c.defaultDtype } := rfl

/-- C4, the claim as stated is false: parsing `Series[Literal["a"]]`
yields `literal = true` but `arg` is the plain string value `"a"`, not a
class object (in particular not the type `str`). -/
theorem c4_counterexample :
    parse (PyObj.generic seriesCls [PyObj.literal [PyLit.strLit "a"]]) =
      Except.ok
        { raw_ann := PyObj.generic seriesCls [PyObj.literal [PyLit.strLit "a"]]
          origin := some (PyObj.classObj seriesCls)
          args := some [PyObj.literal [PyLit.strLit "a"]]
          arg := some (PyObj.valObj (PyLit.strLit "a"))
          is_annotated_type := false
          optional := false
          metadata := none
          literal := true
          default_dtype := none } ∧
    argIsClassObj (some (PyObj.valObj (PyLit.strLit "a"))) = false ∧
    some (PyObj.valObj (PyLit.strLit "a")) ≠ some (PyObj.classObj strCls) :=
  ⟨rfl, rfl, by intro hzz; cases hzz⟩

/-!
## Claim C5 — totality of `AnnotationInfo` construction
-/

/-- C5 (amended): constructing `AnnotationInfo` never raises on a
well-formed annotation whose annotated-metadata first argument (if any)
is callable; a `ValueError`-non-inspectable first argument merely
discards the metadata.  (The claim as stated — *every* input — fails:
see the counterexample, where a non-callable first argument makes
`inspect.signature` raise an uncaught `TypeError`.) -/
theorem c5_parse_total (a : PyObj) (h : annSafe a = true) :
    ∃ info, parse a = Except.ok info := by
  unfold annSafe at h
  cases hs : stripOptional a with
  | error e =>
    rw [hs] at h
    simp at h
  | ok raw =>
    rw [hs] at h
    dsimp only at h
    obtain ⟨info, hp, _, _, _⟩ := parseCore_ok raw (is_optional_type a) h
    refine ⟨info, ?_⟩
    unfold parse
    rw [hs]
    exact hp

theorem c5_witness :
    annSafe (PyObj.classObj intCls) = true ∧
    ∃ info, parse (PyObj.classObj intCls) = Except.ok info :=
  ⟨rfl, c5_parse_total (PyObj.classObj intCls) rfl⟩

/-- C5, the claim as stated is false: `Annotated[T, "meta"]` with `T` a
`TypeVar` is a legal annotation, yet construction raises `TypeError`
(only `ValueError` from `inspect.signature` is caught). -/
theorem c5_counterexample :
    parse (PyObj.annotated (PyObj.typeVar "T") ["meta"]) =
      Except.error (PyErr.typeError ("not a callable object")) := rfl

/-!
## Claim C6 — optional stripping
-/

/-- C6 (amended): for an optional union, `optional` is true and the
union's *first* argument — not necessarily the non-null member — replaces
the annotation before further parsing; all derived fields are computed
from that first member. -/
theorem c6_first_member (a : PyObj) (rest : List PyObj)
    (hopt : is_optional_type (PyObj.union (a :: rest)) = true)
    (hsafe : annSafeStripped a = true) :
    parse (PyObj.union (a :: rest)) = parseCore a true ∧
    ∃ info, parseCore a true = Except.ok info ∧
      info.optional = true ∧ info.raw_ann = a ∧ info.origin = get_origin a := by
  have hstrip : stripOptional (PyObj.union (a :: rest)) = Except.ok a := by
    unfold stripOptional
    rw [hopt]
    rfl
  constructor
  · unfold parse
    rw [hstrip, hopt]
  · obtain ⟨info, hp, h1, h2, h3⟩ := parseCore_ok a true hsafe
    exact ⟨info, hp, h2, h1, h3⟩

theorem c6_witness :
    parse (PyObj.union [PyObj.classObj intCls, PyObj.noneType]) =
      parseCore (PyObj.classObj intCls) true ∧
    ∃ info, parseCore (PyObj.classObj intCls) true = Except.ok info ∧
      info.optional = true ∧ info.raw_ann = PyObj.classObj intCls ∧
      info.origin = get_origin (PyObj.classObj intCls) :=
  c6_first_member (PyObj.classObj intCls) [PyObj.noneType] rfl rfl

/-- C6, the claim as stated is false: on `Union[None, int]` (a legal
optional annotation whose null member comes first) the parser keeps the
*null* member: `raw_ann` becomes `NoneType`, not the non-null member
`int`. -/
theorem c6_counterexample :
    parse (PyObj.union [PyObj.noneType, PyObj.classObj intCls]) =
      Except.ok
        { raw_ann := PyObj.noneType
          origin := none
          args := none
          arg := some PyObj.noneType
          is_annotated_type := false
          optional := true
          metadata := none
          literal := false
          default_dtype := none } ∧
    PyObj.noneType ≠ PyObj.classObj intCls :=
  ⟨rfl, by intro hzz; cases hzz⟩

/-!
## Claim C8 — `is_generic_df`
-/

/-- C8: `is_generic_df` is a total boolean: on a class origin it returns
whether that origin subclasses `DataFrameBase`; on a missing or non-class
origin it returns false (the `TypeError` from `issubclass` is caught).
`NoneType` is itself a class and yields `issubclass(NoneType,
DataFrameBase) = False`. -/
theorem c8_is_generic_df (info : AnnotationInfo) :
    info.is_generic_df =
      (match info.origin with
        | some (PyObj.classObj c) => isDFBsub c
        | _ => false) := by
  rcases info with ⟨r, o, as, ag, ia, op, md, li, dd⟩
  cases o with
  | none => rfl
  | some x => cases x <;> rfl

/-!
## Claim C9 — annotated flag with discarded metadata
-/

/-- C9: when the first argument of an `Annotated[...]` is not inspectable
(`inspect.signature` raises `ValueError`), `is_annotated_type` is still
set to true while `metadata` ends up `None` — so `is_annotated_type`
does not imply metadata is present. -/
theorem c9_annotated_without_metadata (c : PyClass) (m : String) (ms : List String)
    (hc : c.sigOk = false) :
    parse (PyObj.annotated (PyObj.classObj c) (m :: ms)) =
      Except.ok
        { raw_ann := PyObj.annotated (PyObj.classObj c) (m :: ms)
          origin := some (PyObj.classObj c)
          args := some [PyObj.classObj c]
          arg := some (PyObj.classObj c)
          is_annotated_type := true
          optional := false
          metadata := none
          literal := false
          default_dtype := c.defaultDtype } := by
  unfold parse stripOptional parseCore metaPhase litPhase
  simp [is_optional_type, is_union_type, get_args, get_origin, metadataOf,
        signatureOf, hc, is_literal_type, default_dtype_of]

theorem c9_witness :
    parse (PyObj.annotated (PyObj.classObj intCls) ["meta"]) =
      Except.ok
        { raw_ann := PyObj.annotated (PyObj.classObj intCls) ["meta"]
          origin := some (PyObj.classObj intCls)
          args := some [PyObj.classObj intCls]
          arg := some (PyObj.classObj intCls)
          is_annotated_type := true
          optional := false
          metadata := none
          literal := false
          default_dtype := intCls.defaultDtype } :=
  c9_annotated_without_metadata intCls "meta" [] rfl

/-!
## Claim C1 — the delegation check
-/

/-- Coherence of a class value: every direct base occurs among the
ancestors (true of every real Python class). -/
def classWF (c : PyClass) : Bool :=
  c.directBases.all (fun b => c.ancestors.contains b)

/-- C1 (amended): the patched call branches on whether `DataFrameBase` is
among the *direct* bases of the origin.  Any origin that is not a
`DataFrameBase` subtype therefore delegates unchanged to the original
behaviour, with no validation side effect; an origin with `DataFrameBase`
as a direct base takes the validation path.  (The claim as stated — every
*subtype* takes the validation path — fails for strict descendants: see
the counterexample.) -/
theorem c1_bases_check (vf : Schema → Nat → Except PyErr Nat)
    (self : GenAlias) (constructed : Instance)
    (hwf : classWF self.origin = true) :
    (isDFBsub self.origin = false →
      patched_generic_alias_call vf self constructed
        = orig_generic_alias_call vf self constructed ∧
      (setAttrOrigClass vf self.origin constructed self).validated = false) ∧
    (self.origin.directBases.contains ("DataFrameBase") = true →
      patched_generic_alias_call vf self constructed
        = df_generic_call vf self constructed) := by
  constructor
  · intro hnot
    have hnb : self.origin.directBases.contains ("DataFrameBase") = false := by
      cases hc : self.origin.directBases.contains ("DataFrameBase") with
      | false => rfl
      | true =>
        have hmem : ("DataFrameBase" : String) ∈ self.origin.directBases := by
          simpa using hc
        have hanc := List.all_eq_true.mp hwf _ hmem
        rw [isDFBsub] at hnot
        rw [hanc] at hnot
        simp at hnot
    constructor
    · unfold patched_generic_alias_call
      rw [hnb]
      simp
    · unfold setAttrOrigClass
      rw [hnot]
      rfl
  · intro hb
    unfold patched_generic_alias_call
    rw [hb]
    simp

theorem c1_witness :
    (isDFBsub gaPlain.origin = false →
      patched_generic_alias_call vfOk gaPlain inst0
        = orig_generic_alias_call vfOk gaPlain inst0 ∧
      (setAttrOrigClass vfOk gaPlain.origin inst0 gaPlain).validated = false) ∧
    (gaPlain.origin.directBases.contains ("DataFrameBase") = true →
      patched_generic_alias_call vfOk gaPlain inst0
        = df_generic_call vfOk gaPlain inst0) :=
  c1_bases_check vfOk gaPlain inst0 rfl

/-- The instance produced when `Grand[UserModel](…)` swallows the
validation error: `__orig_class__` got recorded, nothing else changed. -/
def instGrandAfter : Instance := { data := 0, pandera := none, origClass := some gaGrand }

/-- C1, the claim as stated is false: `Grand` *is* a subtype of
`DataFrameBase`, yet since `DataFrameBase` is not among its direct bases
the patched call delegates to the original behaviour — observably
different from the validation path, which would propagate the
`SchemaError` this engine raises. -/
theorem c1_counterexample :
    isDFBsub gaGrand.origin = true ∧
    patched_generic_alias_call vfErr gaGrand inst0
      = orig_generic_alias_call vfErr gaGrand inst0 ∧
    patched_generic_alias_call vfErr gaGrand inst0 = Except.ok instGrandAfter ∧
    df_generic_call vfErr gaGrand inst0 = Except.error PyErr.schemaError :=
  ⟨rfl, rfl, rfl, rfl⟩

/-!
## Claim C2 — no duplicate validation
-/

/-- C2: assigning the originating parameterized type to an instance that
already carries the very schema derived from the type argument does not
invoke `validate` again (and leaves the instance unchanged apart from the
recorded `__orig_class__`). -/
theorem c2_no_revalidation (vf : Schema → Nat → Except PyErr Nat)
    (self : Instance) (ga : GenAlias) (s : Schema) (model : PyClass) (rest : List PyObj)
    (hargs : ga.args = some (PyObj.classObj model :: rest))
    (hmro : (mroNamesC model).contains ("DataFrameModel") = true)
    (hschema : model.toSchemaR = Except.ok s)
    (hacc : self.pandera = some (some s)) :
    dataframeSetattr vf self ga =
      { inst := { self with origClass := some ga }, validated := false, err := none } := by
  unfold dataframeSetattr schemaPhase
  rw [hargs]
  dsimp only [getmroNamesExc, toSchemaExc]
  rw [hmro]
  simp [hschema, needsValidation, hacc]

theorem c2_witness :
    dataframeSetattr vfOk instVal gaChild =
      { inst := { instVal with origClass := some gaChild }, validated := false, err := none } :=
  c2_no_revalidation vfOk instVal gaChild { sid := 1 } modelCls [] rfl rfl rfl rfl

/-!
## Claim C3 — exception propagation from the attachment
-/

/-- C3: an exception raised while attaching `__orig_class__` propagates
out of the patched call exactly when it is a `TypeError`, `SchemaError`,
`SchemaInitError` or `SchemaDefinitionError`; every other exception is
swallowed and the (possibly partially mutated) constructed instance is
still returned. -/
theorem c3_propagation (vf : Schema → Nat → Except PyErr Nat)
    (self : GenAlias) (constructed : Instance) (e : PyErr)
    (hb : self.origin.directBases.contains ("DataFrameBase") = true)
    (hi : self.inst = true)
    (he : (setAttrOrigClass vf self.origin constructed self).err = some e) :
    (patched_generic_alias_call vf self constructed = Except.error e ↔
      ((∃ m, e = PyErr.typeError m) ∨ e = PyErr.schemaError ∨
       e = PyErr.schemaInitError ∨ e = PyErr.schemaDefinitionError)) ∧
    (isPropagated e = false →
      patched_generic_alias_call vf self constructed =
        Except.ok (setAttrOrigClass vf self.origin constructed self).inst) := by
  have hp : patched_generic_alias_call vf self constructed =
      (if isPropagated e then Except.error e
       else Except.ok (setAttrOrigClass vf self.origin constructed self).inst) := by
    unfold patched_generic_alias_call df_generic_call
    rw [hb, hi]
    dsimp only
    rw [he]
    simp
  constructor
  · constructor
    · intro hres
      cases hprop : isPropagated e with
      | true =>
        cases e with
        | typeError m => exact Or.inl ⟨m, rfl⟩
        | schemaError => exact Or.inr (Or.inl rfl)
        | schemaInitError => exact Or.inr (Or.inr (Or.inl rfl))
        | schemaDefinitionError => exact Or.inr (Or.inr (Or.inr rfl))
        | valueError => simp [isPropagated] at hprop
        | attributeError => simp [isPropagated] at hprop
        | indexError => simp [isPropagated] at hprop
        | otherError m => simp [isPropagated] at hprop
      | false =>
        rw [hp, hprop] at hres
        simp at hres
    · intro hd
      have hprop : isPropagated e = true := by
        rcases hd with ⟨m, rfl⟩ | rfl | rfl | rfl <;> rfl
      rw [hp, hprop]
      rfl
  · intro hprop
    rw [hp, hprop]
    rfl

theorem c3_witness :
    (patched_generic_alias_call vfOk gaTyVar inst0 = Except.error PyErr.attributeError ↔
      ((∃ m, PyErr.attributeError = PyErr.typeError m) ∨
       PyErr.attributeError = PyErr.schemaError ∨
       PyErr.attributeError = PyErr.schemaInitError ∨
       PyErr.attributeError = PyErr.schemaDefinitionError)) ∧
    (isPropagated PyErr.attributeError = false →
      patched_generic_alias_call vfOk gaTyVar inst0 =
        Except.ok (setAttrOrigClass vfOk gaTyVar.origin inst0 gaTyVar).inst) :=
  c3_propagation vfOk gaTyVar inst0 PyErr.attributeError rfl rfl rfl

/-!
## Claim C7 — the unparameterized marker generic
-/

/-- C7: calling the patched hook on a non-instantiable alias whose origin
has `DataFrameBase` among its bases raises a `TypeError` whose message
names the correct construction form — the origin class called
directly. -/
theorem c7_uninstantiable (vf : Schema → Nat → Except PyErr Nat)
    (self : GenAlias) (constructed : Instance)
    (hb : self.origin.directBases.contains ("DataFrameBase") = true)
    (hi : self.inst = false) :
    patched_generic_alias_call vf self constructed =
      Except.error (PyErr.typeError
        ("Type " ++ self.aliasName ++ " cannot be instantiated; use "
          ++ self.origin.name ++ "() instead")) := by
  unfold patched_generic_alias_call df_generic_call
  rw [hb, hi]
  rfl

theorem c7_witness :
    patched_generic_alias_call vfOk gaNoInst inst0 =
      Except.error (PyErr.typeError
        ("Type " ++ gaNoInst.aliasName ++ " cannot be instantiated; use "
          ++ gaNoInst.origin.name ++ "() instead")) :=
  c7_uninstantiable vfOk gaNoInst inst0 rfl rfl

/-!
## Claim C10 — the schema-model name check
-/

/-- C10 (amended): for a *class* first argument the attachment proceeds
to schema construction exactly when some class in the argument's MRO is
*named* `DataFrameModel` (a name comparison, not an identity or subclass
test), and otherwise raises `TypeError("Could not find DataFrameModel in
class args")`.  (For a non-class first argument the claim as stated
fails: the MRO lookup raises `AttributeError` instead — see the
counterexample.) -/
theorem c10_name_check (vf : Schema → Nat → Except PyErr Nat)
    (self : Instance) (ga : GenAlias) (c : PyClass) (rest : List PyObj)
    (hargs : ga.args = some (PyObj.classObj c :: rest)) :
    dataframeSetattr vf self ga =
      (if (mroNamesC c).contains ("DataFrameModel") then
        schemaPhase vf { self with origClass := some ga } (PyObj.classObj c)
      else
        { inst := { self with origClass := some ga }, validated := false
          err := some (PyErr.typeError ("Could not find DataFrameModel in class args")) }) := by
  unfold dataframeSetattr
  rw [hargs]
  dsimp only [getmroNamesExc]

theorem c10_witness :
    dataframeSetattr vfOk inst0 gaChild =
      (if (mroNamesC modelCls).contains ("DataFrameModel") then
        schemaPhase vfOk { inst0 with origClass := some gaChild } (PyObj.classObj modelCls)
      else
        { inst := { inst0 with origClass := some gaChild }, validated := false
          err := some (PyErr.typeError ("Could not find DataFrameModel in class args")) }) :=
  c10_name_check vfOk inst0 gaChild modelCls [] rfl

/-- C10, the claim as stated is false: with a non-class first type
argument (a bare `TypeVar`), the attachment fails with `AttributeError`
from the MRO lookup, not with a `TypeError`. -/
theorem c10_counterexample :
    (dataframeSetattr vfOk inst0 gaTyVar).err = some PyErr.attributeError ∧
    isTypeErrorOpt ((dataframeSetattr vfOk inst0 gaTyVar).err) = false :=
  ⟨rfl, rfl⟩

end PanderaTyping
